/-
Verification development for the nendo-server Action Dispatch & Execution
Engine (src/nendo_server/handler/nendo_actions_handler.py and
src/nendo_server/main.py), shallowly embedded in Lean 4.

Durations are modelled as rationals (the Python code handles them as
floats but only ever adds and compares them), track identifiers as
naturals, and strings as Lean strings.
-/
import Mathlib

namespace NendoServer

/-- A library track as the chunk planner sees it: an identifier, the
`duration` metadata value and the `title` metadata value
(nendo_actions_handler.py lines 374-384). -/
structure Track where
  id : Nat
  duration : ℚ
  title : String
deriving DecidableEq, Repr

/-- The chunking loop of `NendoActionsHandler.create_docker_action`
(nendo_actions_handler.py lines 374-405), with the running chunk made
explicit. `current` is the track-id list of the most recently created temp
collection and `currentDur` the running `chunk_duration`.  Per the source:
an over-long track goes to `skipped_tracks`; a track that fits
(`max_chunk_duration > 0 ∧ chunk_duration + duration ≤ max_chunk_duration`)
is appended to the current chunk; otherwise a fresh empty chunk collection
is opened and `chunk_duration` is reset to 0 — the source does not add the
track that failed to fit to the new chunk. -/
def chunkLoop (maxTrack maxChunk : ℚ) :
    List Track → List Nat → ℚ → List (List Nat) × List String
  | [], current, _ => ([current], [])
  | t :: rest, current, currentDur =>
    if 0 < maxTrack ∧ maxTrack < t.duration then
      let r := chunkLoop maxTrack maxChunk rest current currentDur
      (r.1, t.title :: r.2)
    else if 0 < maxChunk ∧ currentDur + t.duration ≤ maxChunk then
      chunkLoop maxTrack maxChunk rest (current ++ [t.id]) (currentDur + t.duration)
    else
      let r := chunkLoop maxTrack maxChunk rest [] 0
      (current :: r.1, r.2)

/-- Chunk planning for a collection target (or the whole library): the
source first creates chunk number 0 as an empty temp collection
(nendo_actions_handler.py lines 365-373) and then runs the loop. Returns
the ordered chunk contents and the skipped titles. -/
def planCollectionChunks (maxTrack maxChunk : ℚ) (tracks : List Track) :
    List (List Nat) × List String :=
  chunkLoop maxTrack maxChunk tracks [] 0

/-- Chunk planning for a single-track target (nendo_actions_handler.py
lines 336-355): one temp collection is always created; the track is in it
iff it is not over-long, otherwise its title is recorded as skipped. -/
def planTrackChunk (maxTrack : ℚ) (t : Track) :
    List (List Nat) × List String :=
  if 0 < maxTrack ∧ maxTrack < t.duration then ([[]], [t.title])
  else ([[t.id]], [])

/-- A track is eligible when chunking does not skip it: its duration does
not exceed `max_track_duration` whenever that bound is positive. -/
def eligible (maxTrack : ℚ) (t : Track) : Prop :=
  ¬ (0 < maxTrack ∧ maxTrack < t.duration)

/-- Number of chunk collections of a plan that contain a given track id,
counting multiplicity. -/
def occurrences (chunks : List (List Nat)) (i : Nat) : Nat :=
  (chunks.map (fun c => c.count i)).sum

/-- The resolved target of a dispatch, the result of
`get_track_or_collection(target_id)`: a single track, a collection with
its tracks, or nothing (unknown or empty `target_id`). -/
inductive TargetObj where
  | track (t : Track)
  | coll (tracks : List Track)
  | noTarget
deriving DecidableEq, Repr

/-- One entry of the `target_collections` list assembled by
`create_docker_action`: a freshly created temp collection with the listed
track ids, the id of the already-existing target collection
(line 416), or the empty-string pseudo id used for
`run_without_target` actions (line 426). -/
inductive TargetColl where
  | temp (trackIds : List Nat)
  | existing
  | emptyId
deriving DecidableEq, Repr

/-- The `target_collections` planning of
`NendoActionsHandler.create_docker_action` (nendo_actions_handler.py
lines 327-426). `gpu` is the effective GPU flag (already conjoined with
`server_config.use_gpu`, line 302), `libraryTracks` is what
`library.get_tracks` returns. The guard mirrors line 330-333
(`chunk_actions and not run_without_target and run_without_target is
False and gpu is True`). Returns the planned collections and the skipped
titles; no branch of the source raises for an empty target. -/
def planTargetCollections (chunkActions gpu runWithoutTarget : Bool)
    (maxTrack maxChunk : ℚ) (target : TargetObj)
    (libraryTracks : List Track) : List TargetColl × List String :=
  if chunkActions && !runWithoutTarget && gpu then
    match target with
    | .track t =>
      let r := planTrackChunk maxTrack t
      (r.1.map .temp, r.2)
    | .coll tracks =>
      let r := planCollectionChunks maxTrack maxChunk tracks
      (r.1.map .temp, r.2)
    | .noTarget =>
      let r := planCollectionChunks maxTrack maxChunk libraryTracks
      (r.1.map .temp, r.2)
  else
    match target with
    | .track t => ([.temp [t.id]], [])
    | .coll _ => ([.existing], [])
    | .noTarget =>
      if runWithoutTarget then ([.emptyId], [])
      else ([.temp (libraryTracks.map Track.id)], [])

/-- The base job id of a dispatch batch:
`action_name.replace(" ", "_") + "_" + rnd_string`
(nendo_actions_handler.py lines 307-309). -/
def mkJobIdBase (actionName rndString : String) : String :=
  String.mk (actionName.data.map (fun c => if c = ' ' then '_' else c))
    ++ "_" ++ rndString

/-- The job id of the i-th unit of a batch: the enqueue call passes
`job_id=f"..."` built from the base id and the chunk index
(nendo_actions_handler.py line 452). -/
def unitJobId (base : String) (i : Nat) : String :=
  base ++ "_" ++ toString i

/-- The container name of the i-th unit: the source sets `container_name
= container_name if exec_run is True else job_id` (line 310) and passes
`f"..._i"` to `dockerized_func` (line 446). -/
def unitContainerName (execRun : Bool) (givenName base : String)
    (i : Nat) : String :=
  (if execRun then givenName else base) ++ "_" ++ toString i

/-- Number of work units enqueued by `create_docker_action`: the
`for i, collection_id in enumerate(target_collections)` loop (line 429)
enqueues one unit per planned collection. -/
def enqueuedUnitCount (chunkActions gpu runWithoutTarget : Bool)
    (maxTrack maxChunk : ℚ) (target : TargetObj)
    (libraryTracks : List Track) : Nat :=
  (planTargetCollections chunkActions gpu runWithoutTarget maxTrack
    maxChunk target libraryTracks).1.length

/-- Container status as reported by the runtime when `dockerized_func`
reloads the container (nendo_actions_handler.py line 164-165). -/
inductive ContainerStatus where
  | created
  | running
  | exited
deriving DecidableEq, Repr

/-- One iteration of the watchdog polling loop: the wall-clock elapsed
seconds sampled at the top of the iteration and the container status the
`reload` would observe. -/
structure Poll where
  elapsed : ℚ
  status : ContainerStatus
deriving DecidableEq, Repr

/-- How the polling loop of `dockerized_func` terminated. -/
inductive LoopExit where
  | timeoutStop
  | exitedBreak
deriving DecidableEq, Repr

/-- The `while True` polling loop of `dockerized_func`
(nendo_actions_handler.py lines 152-169) over a finite trace of
observations: each iteration first checks
`func_timeout > 0 and elapsed_time > func_timeout` (stop the container
and break), then reloads and breaks when the status is `exited`,
otherwise sleeps and continues. `none` means the trace ended with the
loop still running. -/
def pollLoop (funcTimeout : Int) : List Poll → Option LoopExit
  | [] => none
  | p :: rest =>
    if 0 < funcTimeout ∧ (funcTimeout : ℚ) < p.elapsed then
      some .timeoutStop
    else if p.status = .exited then
      some .exitedBreak
    else
      pollLoop funcTimeout rest

/-- Python `str.split(sep)` for a one-character separator, on the
character list of the string: always returns at least one (possibly
empty) piece, exactly like `"".split(sep) == [""]`. -/
def pySplitChars (sep : Char) : List Char → List (List Char)
  | [] => [[]]
  | c :: cs =>
    match pySplitChars sep cs with
    | [] => [[]]
    | piece :: rest =>
      if c = sep then [] :: piece :: rest
      else (c :: piece) :: rest

/-- The `.decode("utf-8").split("\n")` applied to container logs in
`dockerized_func` (lines 174 and 182), with the newline separator. -/
def pySplitLines (s : String) : List String :=
  (pySplitChars (Char.ofNat 10) s.data).map String.mk

/-- Python list indexing with negative-index semantics: `xs[i]` is
`xs[len+i]` for negative `i`, and out-of-range access is undefined
(an `IndexError`, modelled as `none`). -/
def pyIndex (xs : List String) (i : Int) : Option String :=
  if 0 ≤ i then xs.get? i.toNat
  else if 0 ≤ (xs.length : Int) + i then xs.get? ((xs.length : Int) + i).toNat
  else none

/-- Python `xs[-n:]` truncation used for the error-log tail
(`if len(err_log) > 5: err_log = err_log[-5:]`, lines 176-177). -/
def pyTail (n : Nat) (xs : List String) : List String :=
  if n < xs.length then xs.drop (xs.length - n) else xs

/-- The result extraction of `dockerized_func` on the zero-exit path
(line 188): `log_lines[-2] if log_lines[-1] == "" else log_lines[-1]`,
`none` when the indexing raises `IndexError`. -/
def extractResult (log : String) : Option String :=
  if pyIndex (pySplitLines log) (-1) = some "" then
    pyIndex (pySplitLines log) (-2)
  else
    pyIndex (pySplitLines log) (-1)

/-- Outcome of the run-mode tail of `dockerized_func` after the polling
loop: a normal return of the result line, a raised exception carrying the
error-log tail (line 179), or the `IndexError` raised by the result
extraction itself. -/
inductive RunReturn where
  | ok (line : String)
  | raised (tail : List String)
  | indexError
deriving DecidableEq, Repr

/-- The post-loop run-mode protocol of `dockerized_func`
(nendo_actions_handler.py lines 171-188) given the container exit code,
its stderr log and its combined log. The second component records
whether `container.remove()` (line 185) was executed: on a non-zero exit
the function raises at line 179 without removing the container; on a
zero exit the removal precedes the result extraction, so it happens even
when the extraction then raises. -/
def runModeFinish (exitCode : Int) (errLog fullLog : String) :
    RunReturn × Bool :=
  if exitCode ≠ 0 then
    (.raised (pyTail 5 (pySplitLines errLog)), false)
  else
    match extractResult fullLog with
    | some line => (.ok line, true)
    | none => (.indexError, true)

/-- A full run-mode execution of `dockerized_func`: the polling loop over
the observation trace followed by the post-loop protocol; `none` when the
trace ends with the container still running. -/
def runModeExec (funcTimeout : Int) (polls : List Poll) (exitCode : Int)
    (errLog fullLog : String) : Option (RunReturn × Bool) :=
  match pollLoop funcTimeout polls with
  | none => none
  | some _ => some (runModeFinish exitCode errLog fullLog)

/-- A value stored in the container environment dictionary of
`dockerized_func`: the source mixes strings, booleans, numbers and the
JSON-encoded plugin list. -/
inductive EnvVal where
  | vs (v : String)
  | vb (v : Bool)
  | vn (v : Int)
  | vlist (v : List String)
deriving DecidableEq, Repr

/-- The server configuration fields read by `dockerized_func` when it
builds `env_vars` (nendo_actions_handler.py lines 76-93). -/
structure ServerCfg where
  containerLibraryPlugin : String
  containerLibraryPath : String
  logLevel : String
  containerPostgresHost : String
  containerPostgresUser : String
  containerPostgresPassword : String
  containerPostgresDb : String
  useGpu : Bool
deriving DecidableEq, Repr

/-- The nendo configuration fields read by `dockerized_func`
(`AUTO_RESAMPLE` through `SKIP_DUPLICATE`). -/
structure NendoCfg where
  autoResample : Bool
  defaultSr : Int
  copyToLibrary : Bool
  autoConvert : Bool
  skipDuplicate : Bool
deriving DecidableEq, Repr

/-- Python `dict` assignment of a single key: replaces the value of an
existing key in place, otherwise appends the new binding. -/
def dictSet : List (String × EnvVal) → String → EnvVal → List (String × EnvVal)
  | [], k, v => [(k, v)]
  | (k0, v0) :: rest, k, v =>
    if k0 = k then (k, v) :: rest else (k0, v0) :: dictSet rest k v

/-- Python `dict.update`: assigns every binding of the overlay into the
base dictionary, overlay values winning on key collisions. -/
def dictUpdate (base overlay : List (String × EnvVal)) :
    List (String × EnvVal) :=
  overlay.foldl (fun acc kv => dictSet acc kv.1 kv.2) base

/-- Dictionary lookup (keys are unique in the lists we build). -/
def dictGet : List (String × EnvVal) → String → Option EnvVal
  | [], _ => none
  | (k0, v0) :: rest, k => if k0 = k then some v0 else dictGet rest k

/-- The engine-defined `env_vars` dictionary of `dockerized_func`
(nendo_actions_handler.py lines 76-93), after the
`use_gpu = use_gpu and cfg.use_gpu` resolution of line 73. The
`PLUGINS` value stands for `json.dumps(plugins)`. -/
def engineEnvVars (userId : String) (plugins : List String)
    (nendoCfg : NendoCfg) (cfg : ServerCfg)
    (useGpu replacePluginData : Bool) : List (String × EnvVal) :=
  [("LIBRARY_PLUGIN", .vs cfg.containerLibraryPlugin),
   ("LIBRARY_PATH", .vs cfg.containerLibraryPath),
   ("LOG_LEVEL", .vs cfg.logLevel),
   ("USER_ID", .vs userId),
   ("PLUGINS", .vlist plugins),
   ("POSTGRES_HOST", .vs cfg.containerPostgresHost),
   ("POSTGRES_USER", .vs cfg.containerPostgresUser),
   ("POSTGRES_PASSWORD", .vs cfg.containerPostgresPassword),
   ("POSTGRES_DB", .vs cfg.containerPostgresDb),
   ("USE_GPU", .vb (useGpu && cfg.useGpu)),
   ("REPLACE_PLUGIN_DATA", .vb replacePluginData),
   ("AUTO_RESAMPLE", .vb nendoCfg.autoResample),
   ("DEFAULT_SR", .vn nendoCfg.defaultSr),
   ("COPY_TO_LIBRARY", .vb nendoCfg.copyToLibrary),
   ("AUTO_CONVERT", .vb nendoCfg.autoConvert),
   ("SKIP_DUPLICATE", .vb nendoCfg.skipDuplicate)]

/-- The environment passed to the container by `dockerized_func`: the
engine dictionary, then `env_vars.update(env)` when the caller supplied
an `env` map (lines 94-95). -/
def dockerizedEnvVars (userId : String) (plugins : List String)
    (nendoCfg : NendoCfg) (cfg : ServerCfg)
    (useGpu replacePluginData : Bool)
    (env : Option (List (String × EnvVal))) : List (String × EnvVal) :=
  let base := engineEnvVars userId plugins nendoCfg cfg useGpu replacePluginData
  match env with
  | none => base
  | some e => dictUpdate base e

/-- A Python value passed as a keyword argument to
`NendoActionsHandler._generate_command`. Numbers and UUIDs carry their
Python string rendering; list items are carried as their Python `str()`
rendering, which is all the encoder uses of them (`f"..."` at line 239);
`vOther` stands for a value of any type the encoder does not support. -/
inductive PyVal where
  | vBool (b : Bool)
  | vStr (s : String)
  | vNum (printed : String)
  | vUUID (printed : String)
  | vList (items : List String)
  | vOther (typeName : String)
deriving DecidableEq, Repr

/-- Encoding of one keyword argument by
`NendoActionsHandler._generate_command` (nendo_actions_handler.py lines
228-243), in the source's branch order: booleans first (true is the bare
presence flag, false contributes nothing), then strings (quoted), then
float/int/UUID (bare), then lists (flag followed by the items), and any
other type raises `Exception("Unsupported parameter type: ...")`. Every
produced fragment carries the trailing space of the source's f-strings. -/
def encodeKwarg (k : String) : PyVal → Except String String
  | .vBool true => .ok ("--" ++ k ++ " ")
  | .vBool false => .ok ""
  | .vStr s => .ok ("--" ++ k ++ "=\"" ++ s ++ "\" ")
  | .vNum s => .ok ("--" ++ k ++ "=" ++ s ++ " ")
  | .vUUID s => .ok ("--" ++ k ++ "=" ++ s ++ " ")
  | .vList items =>
    .ok ("--" ++ k ++ " " ++ String.join (items.map (fun it => it ++ " ")))
  | .vOther t => .error ("Unsupported parameter type: " ++ k ++ " (type " ++ t ++ ")")

/-- The keyword-argument loop of `_generate_command` (lines 228-243):
`kwargs_str` accumulates the fragments in order; the first unsupported
value aborts the whole call with the raised exception. -/
def encodeKwargs (acc : String) :
    List (String × PyVal) → Except String String
  | [] => .ok acc
  | kv :: rest =>
    match encodeKwarg kv.1 kv.2 with
    | .error e => .error e
    | .ok frag => encodeKwargs (acc ++ frag) rest

/-- The full `_generate_command` (lines 225-244): the fixed
`--user_id ... --job_id ...` prefix, the encoded keyword arguments in
order, wrapped into `python run.py ...`. -/
def generateCommand (userId jobId : String)
    (kwargs : List (String × PyVal)) : Except String String :=
  match encodeKwargs ("--user_id " ++ userId ++ " --job_id " ++ jobId ++ " ") kwargs with
  | .error e => .error e
  | .ok body => .ok ("python run.py " ++ body)

/-- RQ job status as returned by `job.get_status()` in `abort_action`. -/
inductive JobStatus where
  | queued
  | started
  | deferred
  | finished
  | failed
  | scheduled
deriving DecidableEq, Repr

/-- Lookup of a job id among the caller's jobs, modelling
`_get_all_job_ids` membership plus `Job.fetch` (nendo_actions_handler.py
lines 515-517). -/
def lookupJob : List (String × JobStatus) → String → Option JobStatus
  | [], _ => none
  | (k0, s0) :: rest, k => if k0 = k then some s0 else lookupJob rest k

/-- Observable outcome of `NendoActionsHandler.abort_action`: the
returned boolean, whether `job.cancel()` ran (removal from the pending
set), whether `send_stop_job_command` ran, and whether the container was
killed and removed. -/
structure AbortOutcome where
  ret : Bool
  canceledFromQueue : Bool
  stopSent : Bool
  containerRemoved : Bool
deriving DecidableEq, Repr

/-- `NendoActionsHandler.abort_action` (nendo_actions_handler.py lines
513-534). `jobs` are the caller's jobs with their statuses, `containers`
the names of containers existing in the runtime. Mirrors the source: an
unknown id raises `ValueError`, caught by the blanket handler — return
false. A known id is canceled (if queued) or sent a stop command
(otherwise); then `client.containers.get(action_id)` raises `NotFound`
when no container of that name exists, which the same handler turns into
false — the already-performed cancel is not undone. Only when the
container exists does the function kill it, remove it and return true. -/
def abortAction (jobs : List (String × JobStatus))
    (containers : List String) (actionId : String) : AbortOutcome :=
  match lookupJob jobs actionId with
  | none => ⟨false, false, false, false⟩
  | some st =>
    if containers.contains actionId then
      ⟨true, decide (st = .queued), decide (st ≠ .queued), true⟩
    else
      ⟨false, decide (st = .queued), decide (st ≠ .queued), false⟩

/-- The filesystem state relevant to master election: whether
`/tmp/rq_init.lock` exists. -/
structure LockFS where
  lockFileExists : Bool
deriving DecidableEq, Repr

/-- `is_master_process` (main.py lines 30-38): try to create the lock
file with `O_CREAT | O_EXCL`; success (file was absent) creates it and
returns true, `FileExistsError` returns false. Returns the boolean and
the filesystem afterwards. -/
def isMasterProcess (fs : LockFS) : Bool × LockFS :=
  if fs.lockFileExists then (false, fs) else (true, ⟨true⟩)

/-- A statement of the `create_app` body relevant to event-handler
registration (main.py lines 41-193): the startup handler is registered
(line 81), the function returns the app (line 185), and only after that
return do the shutdown-handler registration (line 187) and the final
`return None` (line 193) appear. -/
inductive AppStep where
  | registerStartup
  | returnApp
  | registerShutdown
  | returnNone
deriving DecidableEq, Repr

/-- The statement sequence of `create_app` in source order. -/
def createAppBody : List AppStep :=
  [.registerStartup, .returnApp, .registerShutdown, .returnNone]

/-- Python executes a function body only up to its first `return`
statement; everything after it is dead code. -/
def executedSteps : List AppStep → List AppStep
  | [] => []
  | .returnApp :: _ => []
  | .returnNone :: _ => []
  | s :: rest => s :: executedSteps rest

/-- Whether `create_app` ever registers the shutdown handler. -/
def shutdownHandlerRegistered : Bool :=
  (executedSteps createAppBody).contains .registerShutdown

/-- The startup event (main.py lines 176-179): the process that wins the
election (exclusive-create succeeds) initializes queues and workers; the
lock file it created stays. -/
def startupEvent (fs : LockFS) : LockFS :=
  (isMasterProcess fs).2

/-- The body of the (dead) `shutdown_event` handler (main.py lines
188-192): it re-runs `is_master_process()` and removes the lock file only
when that returns true. -/
def shutdownHandlerBody (fs : LockFS) : LockFS :=
  let r := isMasterProcess fs
  if r.1 then ⟨false⟩ else r.2

/-- What actually happens at application shutdown: the handler body runs
only if `create_app` registered it. -/
def appShutdown (fs : LockFS) : LockFS :=
  if shutdownHandlerRegistered then shutdownHandlerBody fs else fs

/-! Helper lemmas shared by the claim theorems. -/

/-- The chunking loop always returns at least one chunk collection: the
source creates chunk 0 before entering the loop. -/
theorem chunkLoop_fst_ne_nil (maxTrack maxChunk : ℚ) :
    ∀ (tracks : List Track) (current : List Nat) (currentDur : ℚ),
      (chunkLoop maxTrack maxChunk tracks current currentDur).1 ≠ [] := by
  intro tracks
  induction tracks with
  | nil => intro current currentDur; simp [chunkLoop]
  | cons t rest ih =>
    intro current currentDur
    simp only [chunkLoop]
    split
    · exact ih current currentDur
    · split
      · exact ih (current ++ [t.id]) (currentDur + t.duration)
      · simp

/-- Assigning a different key leaves a dictionary lookup unchanged. -/
theorem dictGet_dictSet_of_ne (m : List (String × EnvVal))
    (k k2 : String) (v : EnvVal) (h : k2 ≠ k) :
    dictGet (dictSet m k2 v) k = dictGet m k := by
  induction m with
  | nil => simp [dictSet, dictGet, h]
  | cons hd tl ih =>
    by_cases h0 : hd.1 = k2
    · simp [dictSet, dictGet, h0, h]
    · simp only [dictSet, dictGet, h0, if_neg]
      by_cases h1 : hd.1 = k
      · simp [dictGet, h1]
      · simp [dictGet, h1, ih]

/-- `dict.update` with an overlay that does not bind a key leaves that
key's lookup unchanged. -/
theorem dictGet_dictUpdate_of_not_mem (overlay : List (String × EnvVal)) :
    ∀ (m : List (String × EnvVal)) (k : String),
      k ∉ overlay.map Prod.fst →
      dictGet (dictUpdate m overlay) k = dictGet m k := by
  induction overlay with
  | nil => intro m k _; rfl
  | cons hd tl ih =>
    intro m k h
    simp only [List.map_cons, List.mem_cons, not_or] at h
    have step : dictUpdate m (hd :: tl) = dictUpdate (dictSet m hd.1 hd.2) tl := rfl
    rw [step, ih (dictSet m hd.1 hd.2) k h.2,
      dictGet_dictSet_of_ne m k hd.1 hd.2 (fun he => h.1 he.symm)]

/-- An unsupported keyword value makes the encoding loop fail, whatever
the accumulator holds. -/
theorem encodeKwargs_error_of_mem (k t : String) :
    ∀ (kwargs : List (String × PyVal)) (acc : String),
      (k, PyVal.vOther t) ∈ kwargs →
      ∃ e, encodeKwargs acc kwargs = Except.error e := by
  intro kwargs
  induction kwargs with
  | nil => intro acc h; exact absurd h (List.not_mem_nil _)
  | cons kv rest ih =>
    intro acc h
    rcases List.mem_cons.mp h with heq | hmem
    · subst heq
      exact ⟨_, rfl⟩
    · simp only [encodeKwargs]
      match hkv : encodeKwarg kv.1 kv.2 with
      | .error e => exact ⟨e, rfl⟩
      | .ok frag => exact ih (acc ++ frag) hmem

/-! Claim theorems. -/

/-- C1. The chunk planner violates the stated invariant: on a collection
with track durations 300 and 500 and `max_chunk_duration = 600` (no
per-track cap), the second track is eligible, yet the plan is
`[[1], []]` — when a track does not fit the current chunk the source
opens a new empty chunk and drops the track, so the eligible track 2
appears in zero chunk collections instead of exactly one. -/
theorem chunk_planner_drops_boundary_track :
    planCollectionChunks 0 600 [⟨1, 300, "a"⟩, ⟨2, 500, "b"⟩] = ([[1], []], [])
    ∧ occurrences (planCollectionChunks 0 600 [⟨1, 300, "a"⟩, ⟨2, 500, "b"⟩]).1 2 = 0
    ∧ eligible 0 ⟨2, 500, "b"⟩ := by
  have hplan : planCollectionChunks 0 600 [⟨1, 300, "a"⟩, ⟨2, 500, "b"⟩]
      = ([[1], []], []) := by
    norm_num [planCollectionChunks, chunkLoop]
  refine ⟨hplan, ?_, ?_⟩
  · rw [hplan]; decide
  · simp [eligible]

/-- C2 (counterexample). The claim that engine-defined environment keys
keep their engine values for every caller-provided env map is false:
`env_vars.update(env)` gives the caller's map precedence, so a caller
env binding `USER_ID` overrides the engine-defined user id. -/
theorem env_override_counterexample :
    dictGet
      (dockerizedEnvVars "alice" [] ⟨true, 44100, true, true, true⟩
        ⟨"duckdb", "/library", "info", "pg", "pguser", "pgpass", "nendo", true⟩
        true false (some [("USER_ID", EnvVal.vs "mallory")])) "USER_ID"
      = some (EnvVal.vs "mallory")
    ∧ EnvVal.vs "mallory" ≠ EnvVal.vs "alice" := by
  refine ⟨by decide, by decide⟩

/-- C2 (amended). Engine-defined environment keys keep their
engine-defined values exactly for the keys the caller-provided env map
does not bind: lookups of keys absent from the overlay are unchanged by
`env_vars.update(env)`. -/
theorem env_engine_keys_kept_without_collision :
    ∀ (userId : String) (plugins : List String) (ncfg : NendoCfg)
      (cfg : ServerCfg) (useGpu rpd : Bool)
      (env : List (String × EnvVal)) (k : String),
      k ∉ env.map Prod.fst →
      dictGet (dockerizedEnvVars userId plugins ncfg cfg useGpu rpd (some env)) k
        = dictGet (engineEnvVars userId plugins ncfg cfg useGpu rpd) k := by
  intro userId plugins ncfg cfg useGpu rpd env k h
  exact dictGet_dictUpdate_of_not_mem env
    (engineEnvVars userId plugins ncfg cfg useGpu rpd) k h

/-- C2 (witness). A caller env binding only `FOO` leaves the engine's
`USER_ID` value in place. -/
theorem env_engine_keys_kept_without_collision_witness :
    dictGet
      (dockerizedEnvVars "alice" [] ⟨true, 44100, true, true, true⟩
        ⟨"duckdb", "/library", "info", "pg", "pguser", "pgpass", "nendo", true⟩
        true false (some [("FOO", EnvVal.vs "bar")])) "USER_ID"
      = dictGet
        (engineEnvVars "alice" [] ⟨true, 44100, true, true, true⟩
          ⟨"duckdb", "/library", "info", "pg", "pguser", "pgpass", "nendo", true⟩
          true false) "USER_ID" :=
  env_engine_keys_kept_without_collision "alice" []
    ⟨true, 44100, true, true, true⟩
    ⟨"duckdb", "/library", "info", "pg", "pguser", "pgpass", "nendo", true⟩
    true false [("FOO", EnvVal.vs "bar")] "USER_ID" (by decide)

/-- C3 (counterexample). The container is not removed on every exit path:
on a watchdog-timeout run whose stopped container reports exit code 137,
`dockerized_func` raises with the error-log tail and never reaches
`container.remove()` — the removal flag of the execution is false. -/
theorem container_cleanup_counterexample :
    runModeExec 5 [⟨6, ContainerStatus.running⟩] 137 "boom" ""
      = some (RunReturn.raised ["boom"], false) := by decide

/-- C3 (amended). In run mode the container is removed exactly when the
container exits with code 0, regardless of whether the polling loop ended
by watchdog stop or by natural exit: on a non-zero exit the function
raises before the removal. -/
theorem container_removed_iff_zero_exit :
    ∀ (ft : Int) (polls : List Poll) (ec : Int) (el fl : String)
      (r : RunReturn) (rm : Bool),
      runModeExec ft polls ec el fl = some (r, rm) →
      (rm = true ↔ ec = 0) := by
  intro ft polls ec el fl r rm h
  unfold runModeExec at h
  match hp : pollLoop ft polls with
  | none => rw [hp] at h; exact absurd h (by simp)
  | some ex =>
    rw [hp] at h
    simp only [Option.some_inj] at h
    unfold runModeFinish at h
    by_cases hec : ec = 0
    · subst hec
      simp only [ne_eq, not_true_eq_false, if_false, reduceIte] at h
      constructor
      · intro _; rfl
      · intro _
        match hx : extractResult fl with
        | some line => rw [hx] at h; exact (Prod.mk.injEq _ _ _ _ ▸ h).2.symm
        | none => rw [hx] at h; exact (Prod.mk.injEq _ _ _ _ ▸ h).2.symm
    · rw [if_pos hec] at h
      have hrm : rm = false := (Prod.mk.injEq _ _ _ _ ▸ h).2.symm
      constructor
      · intro htrue; rw [hrm] at htrue; exact absurd htrue (by simp)
      · intro h0; exact absurd h0 hec

/-- C3 (amended, witness). A run that exits naturally with code 0 has its
container removed. -/
theorem container_removed_iff_zero_exit_witness :
    (true = true ↔ (0 : Int) = 0) :=
  container_removed_iff_zero_exit 0 [⟨1, ContainerStatus.exited⟩] 0 "" "x"
    (RunReturn.ok "x") true (by decide)

/-- C4 (counterexample). An empty `target_id` with
`run_without_target=false` does not fail: the target resolves to none and
`create_docker_action` plans one temp collection holding every library
track, so one unit is enqueued — there is no `InvalidArgument` path in
the source. -/
theorem empty_target_counterexample :
    enqueuedUnitCount false false false 0 0 TargetObj.noTarget [⟨1, 10, "a"⟩] = 1
    ∧ planTargetCollections false false false 0 0 TargetObj.noTarget [⟨1, 10, "a"⟩]
        = ([TargetColl.temp [1]], []) := by
  refine ⟨by decide, by decide⟩

/-- C4 (amended). With an empty target and `run_without_target=false`
the dispatcher raises nothing and always enqueues at least one unit over
the whole library; when the chunking guard is off, the single unit
targets a temp collection of all library tracks. -/
theorem empty_target_runs_whole_library :
    ∀ (chunkActions gpu : Bool) (maxTrack maxChunk : ℚ) (lib : List Track),
      1 ≤ enqueuedUnitCount chunkActions gpu false maxTrack maxChunk TargetObj.noTarget lib
      ∧ ((chunkActions && gpu) = false →
          planTargetCollections chunkActions gpu false maxTrack maxChunk TargetObj.noTarget lib
            = ([TargetColl.temp (lib.map Track.id)], [])) := by
  intro chunkActions gpu maxTrack maxChunk lib
  constructor
  · unfold enqueuedUnitCount planTargetCollections
    by_cases hg : (chunkActions && !false && gpu) = true
    · rw [if_pos hg]
      have hne := chunkLoop_fst_ne_nil maxTrack maxChunk lib [] 0
      have hpos : 0 < (chunkLoop maxTrack maxChunk lib [] 0).1.length :=
        List.length_pos.mpr hne
      simpa [planCollectionChunks] using hpos
    · rw [if_neg hg]
      simp
  · intro hfg
    have hg : (chunkActions && !false && gpu) = false := by
      simpa using hfg
    unfold planTargetCollections
    rw [hg]
    simp

/-- C4 (amended, witness). A concrete dispatch with no target, chunking
off and `run_without_target=false` enqueues exactly one library-wide
unit. -/
theorem empty_target_runs_whole_library_witness :
    1 ≤ enqueuedUnitCount false false false 0 0 TargetObj.noTarget [⟨1, 10, "a"⟩, ⟨2, 20, "b"⟩]
    ∧ planTargetCollections false false false 0 0 TargetObj.noTarget [⟨1, 10, "a"⟩, ⟨2, 20, "b"⟩]
        = ([TargetColl.temp [1, 2]], []) :=
  ⟨(empty_target_runs_whole_library false false 0 0 [⟨1, 10, "a"⟩, ⟨2, 20, "b"⟩]).1,
   (empty_target_runs_whole_library false false 0 0 [⟨1, 10, "a"⟩, ⟨2, 20, "b"⟩]).2 (by decide)⟩

/-- C5 (counterexample). Aborting an owned queued unit does not return
true: a queued unit has no container yet, so `client.containers.get`
raises `NotFound` after the `job.cancel()`, the blanket handler logs it
and `abort_action` returns false — although the unit was removed from
the pending set. -/
theorem abort_queued_counterexample :
    abortAction [("job1", JobStatus.queued)] [] "job1"
      = ⟨false, true, false, false⟩ := by decide

/-- C5 (amended). For an owned queued unit, `abort_action` removes it
from the pending set and never raises, but returns true exactly when a
container named after the unit exists in the runtime (which it then
kills and removes); otherwise it returns false. -/
theorem abort_queued_cancels_but_needs_container :
    ∀ (jobs : List (String × JobStatus)) (containers : List String)
      (actionId : String),
      lookupJob jobs actionId = some JobStatus.queued →
      (abortAction jobs containers actionId).canceledFromQueue = true
      ∧ ((abortAction jobs containers actionId).ret = true
          ↔ containers.contains actionId = true) := by
  intro jobs containers actionId h
  unfold abortAction
  rw [h]
  by_cases hm : actionId ∈ containers <;> simp [hm]

/-- C5 (amended, witness). A queued unit whose container exists: the unit
is canceled and true is returned. -/
theorem abort_queued_cancels_but_needs_container_witness :
    (abortAction [("j", JobStatus.queued)] ["j"] "j").canceledFromQueue = true
    ∧ ((abortAction [("j", JobStatus.queued)] ["j"] "j").ret = true
        ↔ (["j"].contains "j") = true) :=
  abort_queued_cancels_but_needs_container [("j", JobStatus.queued)] ["j"] "j"
    (by decide)

/-- C6. The argument encoding of `_generate_command`: a true boolean is
the bare presence flag, a false boolean contributes nothing, a string is
quoted, numbers and UUIDs are emitted bare, a list expands to the flag
followed by its items, and any value of an unsupported type makes the
whole call fail with the raised error instead of producing a command. -/
theorem generate_command_encoding :
    (∀ k, encodeKwarg k (PyVal.vBool true) = .ok ("--" ++ k ++ " "))
    ∧ (∀ k, encodeKwarg k (PyVal.vBool false) = .ok "")
    ∧ (∀ k s, encodeKwarg k (PyVal.vStr s) = .ok ("--" ++ k ++ "=\"" ++ s ++ "\" "))
    ∧ (∀ k s, encodeKwarg k (PyVal.vNum s) = .ok ("--" ++ k ++ "=" ++ s ++ " "))
    ∧ (∀ k s, encodeKwarg k (PyVal.vUUID s) = .ok ("--" ++ k ++ "=" ++ s ++ " "))
    ∧ (∀ k items, encodeKwarg k (PyVal.vList items)
        = .ok ("--" ++ k ++ " " ++ String.join (items.map (fun it => it ++ " "))))
    ∧ (∀ (uid jid k t : String) (kwargs : List (String × PyVal)),
        (k, PyVal.vOther t) ∈ kwargs →
        ∃ e, generateCommand uid jid kwargs = Except.error e) := by
  refine ⟨fun k => rfl, fun k => rfl, fun k s => rfl, fun k s => rfl,
    fun k s => rfl, fun k items => rfl, ?_⟩
  intro uid jid k t kwargs hmem
  obtain ⟨e, he⟩ := encodeKwargs_error_of_mem k t kwargs
    ("--user_id " ++ uid ++ " --job_id " ++ jid ++ " ") hmem
  refine ⟨e, ?_⟩
  unfold generateCommand
  rw [he]

/-- C6 (witness). A dictionary-typed parameter aborts the whole command
generation with an error. -/
theorem generate_command_encoding_witness :
    ∃ e, generateCommand "u" "j" [("bad", PyVal.vOther "dict")]
      = Except.error e :=
  generate_command_encoding.2.2.2.2.2.2 "u" "j" "bad" "dict"
    [("bad", PyVal.vOther "dict")] (by decide)

/-- C7. With `func_timeout = 0` the polling loop never stops the
container on elapsed time alone — any loop exit is the natural
`exited` break — while with a positive `func_timeout` an iteration whose
elapsed wall-clock time exceeds the bound stops the container at once. -/
theorem watchdog_timeout_semantics :
    (∀ trace : List Poll, pollLoop 0 trace ≠ some LoopExit.timeoutStop)
    ∧ (∀ (trace : List Poll) (r : LoopExit),
        pollLoop 0 trace = some r → r = LoopExit.exitedBreak)
    ∧ (∀ ft : Int, 0 < ft → ∀ (p : Poll) (rest : List Poll),
        (ft : ℚ) < p.elapsed → pollLoop ft (p :: rest) = some LoopExit.timeoutStop) := by
  have h1 : ∀ trace : List Poll, pollLoop 0 trace ≠ some LoopExit.timeoutStop := by
    intro trace
    induction trace with
    | nil => simp [pollLoop]
    | cons p rest ih =>
      simp only [pollLoop]
      have hcond : ¬(0 < (0 : Int) ∧ ((0 : Int) : ℚ) < p.elapsed) := by
        rintro ⟨h0, _⟩
        exact lt_irrefl 0 h0
      rw [if_neg hcond]
      by_cases hs : p.status = ContainerStatus.exited
      · rw [if_pos hs]
        simp
      · rw [if_neg hs]
        exact ih
  refine ⟨h1, ?_, ?_⟩
  · intro trace r h
    match r with
    | .timeoutStop => exact absurd h (h1 trace)
    | .exitedBreak => rfl
  · intro ft hft p rest hel
    simp only [pollLoop]
    rw [if_pos ⟨hft, hel⟩]

/-- C7 (witness). A loop exit under `func_timeout = 0` is the natural
break, and a 5-second watchdog fires at an iteration 6 seconds in. -/
theorem watchdog_timeout_semantics_witness :
    LoopExit.exitedBreak = LoopExit.exitedBreak
    ∧ pollLoop 5 [⟨6, ContainerStatus.running⟩] = some LoopExit.timeoutStop :=
  ⟨watchdog_timeout_semantics.2.1 [⟨3, ContainerStatus.exited⟩]
      LoopExit.exitedBreak (by norm_num [pollLoop]),
   watchdog_timeout_semantics.2.2 5 (by norm_num)
      ⟨6, ContainerStatus.running⟩ [] (by norm_num)⟩

/-- C8. The master-election lock is never released: `create_app` returns
the app before the `@app.on_event("shutdown")` registration, so the
shutdown handler is dead code, and the lock file created by the winning
startup survives shutdown — moreover even the dead handler would skip
the removal, because its fresh `is_master_process()` call returns false
once the lock file exists. -/
theorem lock_file_not_released_on_shutdown :
    shutdownHandlerRegistered = false
    ∧ startupEvent ⟨false⟩ = ⟨true⟩
    ∧ appShutdown (startupEvent ⟨false⟩) = ⟨true⟩
    ∧ shutdownHandlerBody ⟨true⟩ = ⟨true⟩ := by decide

/-- C9. In run mode (`exec_run=false`) the container name passed to the
runtime for the i-th unit equals that unit's job id, and both follow the
`<action_slug>_<rand8>_<i>` format (spaces of the action name replaced
by underscores) — so `abort_action`'s container lookup by the unit id
names exactly that unit's container. -/
theorem run_mode_container_name_is_job_id :
    ∀ (actionName rndString givenName : String) (i : Nat),
      unitContainerName false givenName (mkJobIdBase actionName rndString) i
        = unitJobId (mkJobIdBase actionName rndString) i
      ∧ unitJobId (mkJobIdBase actionName rndString) i
        = String.mk (actionName.data.map (fun c => if c = ' ' then '_' else c))
            ++ "_" ++ rndString ++ "_" ++ toString i := by
  intro actionName rndString givenName i
  exact ⟨rfl, rfl⟩

/-- C10. On the zero-exit path the result extraction is defined only
when the log, split on newline, ends in a non-empty line or has at least
two lines; a container with no output at all (the log is the single
empty line) makes `log_lines[-2]` an out-of-range index, so the call
raises an `IndexError` instead of returning an empty result. -/
theorem dockerized_result_extraction_partial :
    (∀ errLog, runModeFinish 0 errLog "" = (RunReturn.indexError, true))
    ∧ (∀ log : String, (extractResult log).isSome = true →
        pyIndex (pySplitLines log) (-1) ≠ some "" ∨ 2 ≤ (pySplitLines log).length)
    ∧ pySplitLines "" = [""]
    ∧ pyIndex [""] (-2) = none := by
  refine ⟨?_, ?_, by decide, by decide⟩
  · intro errLog
    have he : extractResult "" = none := by decide
    simp [runModeFinish, he]
  · intro log h
    by_cases hl : pyIndex (pySplitLines log) (-1) = some ""
    · right
      have h2 : extractResult log = pyIndex (pySplitLines log) (-2) := by
        unfold extractResult
        rw [if_pos hl]
      rw [h2] at h
      unfold pyIndex at h
      have hneg : ¬ (0 ≤ (-2 : Int)) := by norm_num
      rw [if_neg hneg] at h
      by_cases hc : 0 ≤ ((pySplitLines log).length : Int) + (-2)
      · omega
      · rw [if_neg hc] at h
        simp at h
    · left
      exact hl

/-- C10 (witness). A log consisting of the single line `a` has a defined
extraction, and indeed its last line is non-empty. -/
theorem dockerized_result_extraction_partial_witness :
    pyIndex (pySplitLines "a") (-1) ≠ some "" ∨ 2 ≤ (pySplitLines "a").length :=
  dockerized_result_extraction_partial.2.1 "a" (by decide)

end NendoServer
